import Mathlib

/-!
Verification of the weather-telemetry pipeline in `Datos_organizados.py`:
the line parser `parse_line` and the hourly aggregation `procesar_buffer`.

Python strings are modelled as `List Char`; the raised exceptions of the
Python functions (`IndexError` from unguarded indexing, the `ValueError`
raised on an empty record set) are modelled with `Except PyExc`.
`pd.to_numeric(errors="coerce")` is modelled for signed decimal literals,
`pd.to_datetime(errors="coerce")` for ISO-8601 date/date-time strings, and
timestamps are encoded injectively into `ℕ` so that flooring to the hour is
`t - t % 3600`.
-/

namespace Datos

/-- Python string token after decoding: a list of characters. -/
abbrev Token := List Char

/-- The value returned by a successful `parse_line`: a list of 12 tokens. -/
abbrev Record := List Token

/-- Exceptions the Python code can raise through the modelled pipeline. -/
inductive PyExc where
  | indexError : PyExc
  | valueError : PyExc
deriving DecidableEq, Repr

/-- Python `str.strip()` whitespace set: space, tab, LF, CR, VT, FF. -/
def isPySpace (c : Char) : Bool :=
  c == ' ' || c == '\t' || c == '\n' || c == '\r' || c == Char.ofNat 11 || c == Char.ofNat 12

/-- Python `str.strip()`: drop leading and trailing whitespace. -/
def pstrip (l : List Char) : List Char :=
  ((l.dropWhile isPySpace).reverse.dropWhile isPySpace).reverse

/-- ASCII STX control character, `'\x02'` in the source. -/
def stxChar : Char := Char.ofNat 2

/-- ASCII ETX control character, `'\x03'` in the source. -/
def etxChar : Char := Char.ofNat 3

/-- Source: `p.replace('\x02', '').replace('\x03', '').strip()`. -/
def cleanToken (p : Token) : Token :=
  pstrip (p.filter (fun c => ¬ (c == stxChar || c == etxChar)))

/-- One position of the preamble regular expression as a character class. -/
def charAlpha (c : Char) : Bool := c.isAlpha

/-- Character class `\d` of the preamble regular expression (ASCII digits). -/
def charDigit (c : Char) : Bool := c.isDigit

/-- Literal space of the preamble regular expression. -/
def charSpace (c : Char) : Bool := c == ' '

/-- Literal colon of the preamble regular expression. -/
def charColon (c : Char) : Bool := c == ':'

/-- The anchored prefix pattern
`[A-Za-z]{3} \d{2} [A-Za-z]{3} \d{4} \d{2}:\d{2}:\d{2}` as a list of
character classes, one per matched character. -/
def preamblePat : List (Char → Bool) :=
  [charAlpha, charAlpha, charAlpha, charSpace,
   charDigit, charDigit, charSpace,
   charAlpha, charAlpha, charAlpha, charSpace,
   charDigit, charDigit, charDigit, charDigit, charSpace,
   charDigit, charDigit, charColon, charDigit, charDigit, charColon,
   charDigit, charDigit]

/-- Match a list of character classes against a prefix of the input. -/
def matchPat : List (Char → Bool) → List Char → Bool
  | [], _ => true
  | _ :: _, [] => false
  | p :: ps, c :: cs => p c && matchPat ps cs

/-- Source: `re.match(r'^[A-Za-z]{3} \d{2} [A-Za-z]{3} \d{4} \d{2}:\d{2}:\d{2}', line)`. -/
def preambleOK (line : List Char) : Bool :=
  matchPat preamblePat line

/-- Source: `line.split(",", 1)[1]` — everything after the first comma, or
`none` when the line holds no comma (in which case the Python indexing
raises `IndexError`). -/
def afterFirstComma : List Char → Option (List Char)
  | [] => none
  | c :: cs => if c == ',' then some cs else afterFirstComma cs

/-- Source: `[p.replace('\x02','').replace('\x03','').strip() for p in rest.split(",") if p != ""]`
applied to `rest.lstrip()`.  Note the membership filter tests the raw token
`p`, before cleaning. -/
def tokenize (rest : List Char) : List Token :=
  (((rest.dropWhile isPySpace).splitOn ',').filter (fun p => p ≠ [])).map cleanToken

/-- Source: `if parts and parts[0] == "Q": parts.pop(0)`. -/
def stripQ (parts : List Token) : List Token :=
  match parts with
  | [] => []
  | t :: rest => if t = ['Q'] then rest else t :: rest

/-- One character of the checksum pattern `[0-9A-Fa-f]`. -/
def isHexChar (c : Char) : Bool :=
  c.isDigit || (decide ('A' ≤ c) && decide (c ≤ 'F')) || (decide ('a' ≤ c) && decide (c ≤ 'f'))

/-- Source: `re.fullmatch(r'[0-9A-Fa-f]{1,2}', t)` — one or two hex digits. -/
def isHex12 (t : Token) : Bool :=
  (t.length == 1 || t.length == 2) && t.all isHexChar

/-- Source: `if parts and re.fullmatch(r'[0-9A-Fa-f]{1,2}', parts[-1]): crc = parts.pop()`. -/
def stripCrc (parts : List Token) : List Token :=
  match parts.getLast? with
  | some t => if isHex12 t then parts.dropLast else parts
  | none => parts

/-- Source: `parts[5].lstrip("+")` — drop every leading plus sign. -/
def stripPlus (t : Token) : Token :=
  t.dropWhile (fun c => c == '+')

/-- Source: `parts[5] = parts[5].lstrip("+"); parts[6] = parts[6].lstrip("+")`. -/
def signNorm (parts : List Token) : List Token :=
  let a := parts.set 5 (stripPlus (parts.getD 5 []))
  a.set 6 (stripPlus (a.getD 6 []))

/-- The token list of a line after tokenization, query-marker removal and
checksum removal (steps 2-4 of the parser); `none` when the line has no
comma at all. -/
def cleanupMarkers (line : List Char) : Option (List Token) :=
  (afterFirstComma line).map (fun rest => stripCrc (stripQ (tokenize rest)))

/-- The function `parse_line` of `Datos_organizados.py`.  `Except.error`
models an uncaught Python exception, `Except.ok none` a rejected line and
`Except.ok (some r)` a produced record. -/
def parse_line (line : List Char) : Except PyExc (Option Record) :=
  if preambleOK line then
    match afterFirstComma line with
    | none => Except.error PyExc.indexError
    | some rest =>
      if (stripCrc (stripQ (tokenize rest))).length = 13 then
        Except.ok (some ((signNorm (stripCrc (stripQ (tokenize rest)))).eraseIdx 11))
      else
        Except.ok none
  else
    Except.ok none

/-- Value of a list of ASCII digit characters read in base 10. -/
def digitsToNat (cs : List Char) : ℕ :=
  cs.foldl (fun a c => a * 10 + (c.toNat - 48)) 0

/-- Every character of the list is an ASCII digit. -/
def allDigits (cs : List Char) : Bool :=
  cs.all (fun c => c.isDigit)

/-- Model of `pd.to_numeric(errors="coerce")` on one token, restricted to
optionally signed decimal literals (`21`, `+21.5`, `-5.0`, `.5`, `3.`);
anything else coerces to missing (`none`, pandas `NaN`). -/
def to_numeric (s : Token) : Option ℚ :=
  match s with
  | '+' :: body => numBody 1 body
  | '-' :: body => numBody (-1) body
  | body => numBody 1 body
where
  /-- Parse the unsigned part and apply the sign. -/
  numBody (sgn : ℚ) (body : List Char) : Option ℚ :=
    match body.splitOn '.' with
    | [ip] =>
      if ip ≠ [] ∧ allDigits ip then some (sgn * (digitsToNat ip : ℚ)) else none
    | [ip, fp] =>
      if (ip ≠ [] ∨ fp ≠ []) ∧ allDigits ip ∧ allDigits fp then
        some (sgn * ((digitsToNat ip : ℚ) + (digitsToNat fp : ℚ) / (10 ^ fp.length : ℚ)))
      else none
    | _ => none

/-- Injective encoding of a calendar timestamp into `ℕ`; within the valid
ranges (month `≤ 12`, day `≤ 31`, hour `< 24`, minute and second `< 60`)
it is strictly monotone in lexicographic chronological order, and one hour
spans exactly 3600 consecutive codes. -/
def tsEncode (y mo d h mi s : ℕ) : ℕ :=
  ((((y * 13 + mo) * 32 + d) * 24 + h) * 60 + mi) * 60 + s

/-- A component of an ISO date/time: all digits, width within bounds. -/
def numField (lo hi : ℕ) (cs : List Char) : Bool :=
  allDigits cs && decide (lo ≤ cs.length) && decide (cs.length ≤ hi)

/-- Model of `pd.to_datetime(errors="coerce")` on one token, restricted to
ISO-8601 `YYYY-MM-DD` optionally followed by `T` or space and `HH:MM:SS`,
with calendar range checks; failures coerce to missing (pandas `NaT`). -/
def to_datetime (s : Token) : Option ℕ :=
  match (s.map (fun c => if c == 'T' then ' ' else c)).splitOn ' ' with
  | [d] => dateCode d 0 0 0
  | [d, t] =>
    match t.splitOn ':' with
    | [hh, mm, ss] =>
      if numField 1 2 hh ∧ numField 1 2 mm ∧ numField 1 2 ss ∧
         digitsToNat hh ≤ 23 ∧ digitsToNat mm ≤ 59 ∧ digitsToNat ss ≤ 59 then
        dateCode d (digitsToNat hh) (digitsToNat mm) (digitsToNat ss)
      else none
    | _ => none
  | _ => none
where
  /-- Parse the `YYYY-MM-DD` part and encode together with the time. -/
  dateCode (d : List Char) (h mi sec : ℕ) : Option ℕ :=
    match d.splitOn '-' with
    | [yy, mo, dd] =>
      if numField 4 4 yy ∧ numField 1 2 mo ∧ numField 1 2 dd ∧
         1 ≤ digitsToNat mo ∧ digitsToNat mo ≤ 12 ∧
         1 ≤ digitsToNat dd ∧ digitsToNat dd ≤ 31 then
        some (tsEncode (digitsToNat yy) (digitsToNat mo) (digitsToNat dd) h mi sec)
      else none
    | _ => none

/-- Source: `df["FechaISO"].dt.floor("h")` on the encoded timestamps —
truncate to the start of the containing hour. -/
def hourFloor (t : ℕ) : ℕ :=
  t - t % 3600

/-- A record after the typing stage of `procesar_buffer`: the ten numeric
columns after `pd.to_numeric` coercion and the coerced valid timestamp
(rows whose timestamp coerces to `NaT` are dropped before this stage). -/
structure VRec where
  nums : List (Option ℚ)
  ts : ℕ
deriving DecidableEq, Repr

/-- The ten numeric columns of one record: `df[num].apply(pd.to_numeric, errors="coerce")`. -/
def numFields (r : Record) : List (Option ℚ) :=
  (r.take 10).map to_numeric

/-- The coerced timestamp of one record: `pd.to_datetime(df["FechaISO"], errors="coerce")`. -/
def recTs (r : Record) : Option ℕ :=
  to_datetime (r.getD 10 [])

/-- Typing and timestamp filtering of `procesar_buffer`: coerce the numeric
columns, coerce `FechaISO`, and drop the rows where it failed
(`df.dropna(subset=["FechaISO"])`). -/
def validRecs (filas : List Record) : List VRec :=
  filas.filterMap (fun r => (recTs r).map (fun t => VRec.mk (numFields r) t))

/-- The grouping key of one typed record: its timestamp floored to the hour. -/
def hourOf (v : VRec) : ℕ :=
  hourFloor v.ts

/-- The non-missing values of numeric field `i` among the records of the
hour group `k` — the values pandas averages in `groupby("FechaHora")[num].mean()`. -/
def groupVals (vs : List VRec) (k i : ℕ) : List ℚ :=
  (vs.filter (fun v => hourOf v = k)).filterMap (fun v => v.nums.getD i none)

/-- Pandas column mean with `skipna`: the arithmetic mean of the non-missing
values, or missing when every value of the group is missing. -/
def fieldMean (vs : List VRec) (k i : ℕ) : Option ℚ :=
  if groupVals vs k i = [] then none
  else some ((groupVals vs k i).sum / ((groupVals vs k i).length : ℚ))

/-- One row of the output of `groupby("FechaHora")[num].mean().reset_index()`:
the hour boundary and the ten per-field means in column order. -/
structure HourlyRow where
  hora : ℕ
  means : List (Option ℚ)
deriving DecidableEq, Repr

/-- The distinct hour keys in ascending order — `groupby` sorts its keys. -/
def hourKeys (vs : List VRec) : List ℕ :=
  List.insertionSort (· ≤ ·) (vs.map hourOf).dedup

/-- The rows of the hourly-mean table, one per distinct hour key. -/
def hourlyRows (vs : List VRec) : List HourlyRow :=
  (hourKeys vs).map (fun k => HourlyRow.mk k ((List.range 10).map (fun i => fieldMean vs k i)))

/-- The aggregation stage of `procesar_buffer` on the parsed records:
typing, dropping invalid timestamps, flooring, grouping and averaging. -/
def aggregate (filas : List Record) : List HourlyRow :=
  hourlyRows (validRecs filas)

/-- Source: `[parse_line(l...) for l in ...]` then `[f for f in filas if f]` —
parse every line (an uncaught exception propagates) and keep the records. -/
def parseLines (lines : List (List Char)) : Except PyExc (List Record) :=
  (lines.mapM parse_line).map (fun os => os.filterMap id)

/-- The function `procesar_buffer` of `Datos_organizados.py` on an
already-decoded list of lines: parse, filter, raise `ValueError` when no
record remains (`raise ValueError("Sin registros válidos.")`), otherwise
return the hourly-mean table. -/
def procesar_buffer (lines : List (List Char)) : Except PyExc (List HourlyRow) :=
  match parseLines lines with
  | Except.error e => Except.error e
  | Except.ok filas =>
    if filas = [] then Except.error PyExc.valueError
    else Except.ok (aggregate filas)

/-- A well-formed raw line: preamble, query marker `Q`, thirteen data
tokens (signed Temp and PuntoRocio, reserved slot `R7`, flag `OK`) and a
trailing checksum `1A`. -/
def exGood : List Char :=
  (r"Mon 01 Jan 2024 10:00:00, Q,10,20,30,1000,50,+21.5,+10.0,0.0,0.5,345,2024-01-01T10:15:00,R7,OK,1A").data

/-- The record `parse_line` produces for `exGood`. -/
def exGoodRec : Record :=
  [(r"10").data, (r"20").data, (r"30").data, (r"1000").data, (r"50").data,
   (r"21.5").data, (r"10.0").data, (r"0.0").data, (r"0.5").data, (r"345").data,
   (r"2024-01-01T10:15:00").data, (r"OK").data]

/-- A line matching the preamble pattern but containing no comma at all. -/
def exNoComma : List Char :=
  (r"Mon 01 Jan 2024 10:00:00").data

/-- A line whose third raw token is a single space: non-empty before
cleaning, empty after. -/
def exBlankTok : List Char :=
  (r"Mon 01 Jan 2024 10:00:00,a0, ,c0,d0,e0,f0,g0,h0,i0,j0,2024-01-01T10:00:00,k0,m0").data

/-- The record `parse_line` produces for `exBlankTok`: it contains the
empty token at position 1. -/
def exBlankRec : Record :=
  [(r"a0").data, [], (r"c0").data, (r"d0").data, (r"e0").data, (r"f0").data,
   (r"g0").data, (r"h0").data, (r"i0").data, (r"j0").data,
   (r"2024-01-01T10:00:00").data, (r"m0").data]

/-- A line with exactly thirteen clean tokens whose genuine last data field
is the single hex digit `A`. -/
def exHexLast : List Char :=
  (r"Mon 01 Jan 2024 10:00:00,n0,n1,n2,n3,n4,n5,n6,n7,n8,n9,2024-01-01T10:00:00,n11,A").data

/-- A record timestamped 2024-01-01 10:15:00 with Temp 20. -/
def recA : Record :=
  [(r"1").data, (r"2").data, (r"3").data, (r"4").data, (r"5").data,
   (r"20").data, (r"7").data, (r"8").data, (r"9").data, (r"10").data,
   (r"2024-01-01T10:15:00").data, (r"F").data]

/-- A record timestamped 2024-01-01 10:45:00 with Temp 22, otherwise as `recA`. -/
def recB : Record :=
  [(r"1").data, (r"2").data, (r"3").data, (r"4").data, (r"5").data,
   (r"22").data, (r"7").data, (r"8").data, (r"9").data, (r"10").data,
   (r"2024-01-01T10:45:00").data, (r"F").data]

/-- A record whose Humedad field (position 4) fails numeric coercion. -/
def recC : Record :=
  [(r"1").data, (r"2").data, (r"3").data, (r"4").data, (r"abc").data,
   (r"20").data, (r"7").data, (r"8").data, (r"9").data, (r"10").data,
   (r"2024-01-01T10:15:00").data, (r"F").data]

/-- A record in the same hour as `recC` with Humedad 50 and Temp 22. -/
def recD : Record :=
  [(r"1").data, (r"2").data, (r"3").data, (r"4").data, (r"50").data,
   (r"22").data, (r"7").data, (r"8").data, (r"9").data, (r"10").data,
   (r"2024-01-01T10:45:00").data, (r"F").data]

/-- A record whose FechaISO field fails timestamp coercion. -/
def recBadTs : Record :=
  [(r"1").data, (r"2").data, (r"3").data, (r"4").data, (r"5").data,
   (r"6").data, (r"7").data, (r"8").data, (r"9").data, (r"10").data,
   (r"notadate").data, (r"F").data]

/-- Everything after the first comma of `exGood`. -/
def exGoodRest : List Char :=
  (r" Q,10,20,30,1000,50,+21.5,+10.0,0.0,0.5,345,2024-01-01T10:15:00,R7,OK,1A").data

/-- The thirteen data tokens of `exGood` after marker removal, before sign
normalization. -/
def exGoodParts : List Token :=
  [(r"10").data, (r"20").data, (r"30").data, (r"1000").data, (r"50").data,
   (r"+21.5").data, (r"+10.0").data, (r"0.0").data, (r"0.5").data, (r"345").data,
   (r"2024-01-01T10:15:00").data, (r"R7").data, (r"OK").data]

/-- Everything after the first comma of `exBlankTok`. -/
def exBlankRest : List Char :=
  (r"a0, ,c0,d0,e0,f0,g0,h0,i0,j0,2024-01-01T10:00:00,k0,m0").data

/-- The thirteen tokens of `exBlankTok` after cleanup: position 1 is the
empty token left by the whitespace-only raw token. -/
def exBlankParts : List Token :=
  [(r"a0").data, [], (r"c0").data, (r"d0").data, (r"e0").data, (r"f0").data,
   (r"g0").data, (r"h0").data, (r"i0").data, (r"j0").data,
   (r"2024-01-01T10:00:00").data, (r"k0").data, (r"m0").data]

/-- Everything after the first comma of `exHexLast`. -/
def exHexRest : List Char :=
  (r"n0,n1,n2,n3,n4,n5,n6,n7,n8,n9,2024-01-01T10:00:00,n11,A").data

/-! ### Lemmas about the parser stages -/

/-- Sign normalization never changes the number of tokens. -/
theorem length_signNorm (parts : List Token) : (signNorm parts).length = parts.length := by
  simp [signNorm]

/-- When the head token is the literal `Q`, `stripQ` removes exactly it. -/
theorem stripQ_of_head {parts : List Token} (h : parts.head? = some ['Q']) :
    stripQ parts = parts.tail := by
  cases parts with
  | nil => simp at h
  | cons t rest =>
    simp only [List.head?_cons, Option.some.injEq] at h
    simp [stripQ, h]

/-- When the last token matches the checksum shape, `stripCrc` removes
exactly it. -/
theorem stripCrc_of_getLast {parts : List Token} {t : Token}
    (h : parts.getLast? = some t) (hx : isHex12 t = true) :
    stripCrc parts = parts.dropLast := by
  unfold stripCrc
  rw [h]
  simp [hx]

/-- Checksum removal on a token list with an explicit hex-shaped last token. -/
theorem stripCrc_concat {l : List Token} {t : Token} (hx : isHex12 t = true) :
    stripCrc (l ++ [t]) = l := by
  rw [stripCrc_of_getLast (List.getLast?_concat l) hx, List.dropLast_concat]

/-- Characterization of a successful parse: the line passed the preamble
gate, the post-cleanup token list exists and has exactly 13 tokens, and the
record is that list with signs normalized and index 11 removed. -/
theorem parse_line_ok_some {line : List Char} {r : Record}
    (h : parse_line line = Except.ok (some r)) :
    ∃ parts, cleanupMarkers line = some parts ∧ parts.length = 13 ∧
      r = (signNorm parts).eraseIdx 11 := by
  unfold parse_line at h
  split at h
  · rename_i hp
    split at h
    · simp at h
    · rename_i rest hac
      split at h
      · rename_i hl
        simp only [Except.ok.injEq, Option.some.injEq] at h
        exact ⟨stripCrc (stripQ (tokenize rest)), by simp [cleanupMarkers, hac], hl, h.symm⟩
      · simp at h
  · simp at h

/-- A line whose post-cleanup token list does not have exactly 13 tokens is
rejected (never a record, never an exception). -/
theorem parse_line_reject_of_arity {line : List Char} {parts : List Token}
    (hc : cleanupMarkers line = some parts) (hl : parts.length ≠ 13) :
    parse_line line = Except.ok none := by
  unfold cleanupMarkers at hc
  cases hac : afterFirstComma line with
  | none => rw [hac] at hc; exact absurd hc (by simp)
  | some rest =>
    rw [hac] at hc
    simp only [Option.map_some', Option.some.injEq] at hc
    unfold parse_line
    by_cases hp : preambleOK line
    · rw [if_pos hp]
      simp only [hac]
      rw [if_neg (hc ▸ hl)]
    · rw [if_neg hp]

/-! ### Claim theorems about the parser -/

/-- C1: whenever `parse_line` produces a Record, the post-cleanup token
list had exactly 13 tokens and the Record is that list, signs normalized at
positions 5 and 6, with the token at index 11 (second-to-last) removed — so
it has exactly 12 positional fields in order; when the post-cleanup count
is not 13 the line is rejected, and no partial record is ever produced. -/
theorem C1_record_shape :
    (∀ (line : List Char) (r : Record), parse_line line = Except.ok (some r) →
      ∃ parts, cleanupMarkers line = some parts ∧ parts.length = 13 ∧
        r = (signNorm parts).eraseIdx 11 ∧ r.length = 12) ∧
    (∀ (line : List Char) (parts : List Token), cleanupMarkers line = some parts →
      parts.length ≠ 13 → parse_line line = Except.ok none) := by
  constructor
  · intro line r h
    obtain ⟨parts, hc, hl, hr⟩ := parse_line_ok_some h
    refine ⟨parts, hc, hl, hr, ?_⟩
    subst hr
    rw [List.length_eraseIdx_of_lt (by rw [length_signNorm, hl]; omega)]
    rw [length_signNorm, hl]
  · intro line parts hc hl
    exact parse_line_reject_of_arity hc hl

/-- Witness for C1 at the concrete line `exGood`. -/
theorem C1_record_shape_witness :
    ∃ parts, cleanupMarkers exGood = some parts ∧ parts.length = 13 ∧
      exGoodRec = (signNorm parts).eraseIdx 11 ∧ exGoodRec.length = 12 :=
  C1_record_shape.1 exGood exGoodRec rfl

/-- C2: the code raises at the failing input — a line that matches the
preamble pattern but contains no comma makes `parse_line` raise
`IndexError` (from `line.split(",", 1)[1]`) instead of silently rejecting,
contradicting the no-exception contract. -/
theorem C2_noComma_raises :
    preambleOK exNoComma = true ∧ parse_line exNoComma = Except.error PyExc.indexError :=
  ⟨rfl, rfl⟩

/-- C5 counterexample: `exBlankTok` passes the preamble gate and its raw
token list holds a whitespace-only token, which the filter (applied before
cleaning) keeps; it becomes the empty token, appears in the post-cleanup
token list and even in the produced Record — refuting the claim that the
post-tokenization list never contains an empty-string token. -/
theorem C5_counterexample_blank_token :
    preambleOK exBlankTok = true ∧
    cleanupMarkers exBlankTok = some exBlankParts ∧ ([] : Token) ∈ exBlankParts ∧
    parse_line exBlankTok = Except.ok (some exBlankRec) ∧ ([] : Token) ∈ exBlankRec :=
  ⟨rfl, rfl, by decide, rfl, by decide⟩

/-- C5 (amended): tokenization takes everything after the first comma,
strips leading whitespace, splits on commas, drops every raw token that is
empty BEFORE cleaning, and cleans (STX/ETX removal plus strip) each kept
token — tokens that become empty only after cleaning are retained. -/
theorem C5_tokens_from_nonempty_raw :
    (∀ (rest : List Char) (t : Token), t ∈ tokenize rest →
      ∃ p, p ∈ (rest.dropWhile isPySpace).splitOn ',' ∧ p ≠ [] ∧ t = cleanToken p) ∧
    (∀ (rest : List Char) (p : List Char), p ∈ (rest.dropWhile isPySpace).splitOn ',' →
      p ≠ [] → cleanToken p ∈ tokenize rest) := by
  constructor
  · intro rest t ht
    unfold tokenize at ht
    obtain ⟨p, hp, rfl⟩ := List.mem_map.mp ht
    obtain ⟨hmem, hne⟩ := List.mem_filter.mp hp
    exact ⟨p, hmem, by simpa using hne, rfl⟩
  · intro rest p hmem hne
    unfold tokenize
    exact List.mem_map_of_mem _ (List.mem_filter.mpr ⟨hmem, by simpa using hne⟩)

/-- Witness for the amended C5 at the concrete tail `exBlankRest`, whose
tokenization contains the empty token. -/
theorem C5_tokens_from_nonempty_raw_witness :
    ∃ p, p ∈ (exBlankRest.dropWhile isPySpace).splitOn ',' ∧ p ≠ [] ∧
      ([] : Token) = cleanToken p :=
  C5_tokens_from_nonempty_raw.1 exBlankRest [] (by decide)

/-- C6: a leading literal `Q` token is removed by `stripQ`, a trailing
token of one or two hex digits is removed by `stripCrc` without any
validation, and a Record produced from a line carrying both markers is
built solely from the thirteen tokens strictly between them, so neither
removed token occupies any of the 12 output fields. -/
theorem C6_marker_removal :
    (∀ parts : List Token, parts.head? = some ['Q'] → stripQ parts = parts.tail) ∧
    (∀ (parts : List Token) (t : Token), parts.getLast? = some t → isHex12 t = true →
      stripCrc parts = parts.dropLast) ∧
    (∀ (line rest : List Char) (mid : List Token) (t : Token) (r : Record),
      afterFirstComma line = some rest →
      tokenize rest = ['Q'] :: (mid ++ [t]) →
      isHex12 t = true →
      parse_line line = Except.ok (some r) →
      r = (signNorm mid).eraseIdx 11) := by
  refine ⟨fun parts h => stripQ_of_head h,
          fun parts t h hx => stripCrc_of_getLast h hx, ?_⟩
  intro line rest mid t r hac htok hx hp
  obtain ⟨parts, hc, _, hr⟩ := parse_line_ok_some hp
  unfold cleanupMarkers at hc
  rw [hac] at hc
  simp only [Option.map_some', Option.some.injEq] at hc
  rw [htok] at hc
  rw [show stripQ (['Q'] :: (mid ++ [t])) = mid ++ [t] from stripQ_of_head rfl] at hc
  rw [stripCrc_concat hx] at hc
  rw [← hc] at hr
  exact hr

/-- Witness for C6 at the concrete line `exGood`, whose markers `Q` and
`1A` are both stripped. -/
theorem C6_marker_removal_witness :
    exGoodRec = (signNorm exGoodParts).eraseIdx 11 :=
  C6_marker_removal.2.2 exGood exGoodRest exGoodParts ((r"1A").data) exGoodRec rfl rfl rfl rfl

/-- C10: a line whose cleaned, Q-stripped token list has exactly 13 tokens
with a hex-shaped (one or two hex digits) last token can never produce a
Record: the checksum removal eats that genuine last field, 12 tokens
remain, and the arity gate rejects the line. -/
theorem C10_hex_last_field_rejected :
    ∀ (line rest : List Char) (t : Token),
      preambleOK line = true →
      afterFirstComma line = some rest →
      (stripQ (tokenize rest)).length = 13 →
      (stripQ (tokenize rest)).getLast? = some t →
      isHex12 t = true →
      parse_line line = Except.ok none := by
  intro line rest t hp hac hlen hlast hx
  unfold parse_line
  rw [if_pos hp]
  simp only [hac]
  rw [stripCrc_of_getLast hlast hx]
  rw [if_neg ?_]
  rw [List.length_dropLast, hlen]
  decide

/-- Witness for C10 at the concrete line `exHexLast`, whose genuine last
data field is the single hex digit `A`. -/
theorem C10_hex_last_field_rejected_witness :
    parse_line exHexLast = Except.ok none :=
  C10_hex_last_field_rejected exHexLast exHexRest ((r"A").data)
    (by decide) rfl (by decide) rfl rfl

/-! ### Lemmas about the aggregator -/

/-- Indexing into the means list of a row selects the field mean. -/
theorem means_getD (vs : List VRec) (k i : ℕ) (hi : i < 10) :
    ((List.range 10).map (fun j => fieldMean vs k j)).getD i none = fieldMean vs k i := by
  rw [List.getD_eq_getElem?_getD, List.getElem?_map, List.getElem?_range hi]
  rfl

/-- Every row of the hourly table carries one of the hour keys and the
per-field means for that key. -/
theorem of_mem_hourlyRows {vs : List VRec} {row : HourlyRow} (h : row ∈ hourlyRows vs) :
    row.hora ∈ hourKeys vs ∧
    row.means = (List.range 10).map (fun i => fieldMean vs row.hora i) := by
  obtain ⟨k, hk, rfl⟩ := List.mem_map.mp h
  exact ⟨hk, rfl⟩

/-- An hour key occurs in the table exactly when some valid record floors
into it. -/
theorem mem_hourKeys {vs : List VRec} {k : ℕ} :
    k ∈ hourKeys vs ↔ ∃ v ∈ vs, hourOf v = k := by
  unfold hourKeys
  rw [List.mem_insertionSort, List.mem_dedup, List.mem_map]

/-- The hour keys are strictly increasing. -/
theorem hourKeys_sorted (vs : List VRec) : (hourKeys vs).Sorted (· < ·) := by
  unfold hourKeys
  have hnd : (List.insertionSort (· ≤ ·) (vs.map hourOf).dedup).Nodup :=
    (List.perm_insertionSort (· ≤ ·) (vs.map hourOf).dedup).nodup_iff.mpr
      (List.nodup_dedup (vs.map hourOf))
  exact (List.sorted_insertionSort (· ≤ ·) (vs.map hourOf).dedup).lt_of_le hnd

/-- The hour keys depend only on the multiset of typed records. -/
theorem hourKeys_eq_of_perm {vs₁ vs₂ : List VRec} (h : vs₁.Perm vs₂) :
    hourKeys vs₁ = hourKeys vs₂ := by
  unfold hourKeys
  refine List.eq_of_perm_of_sorted ?_
    (List.sorted_insertionSort (· ≤ ·) _) (List.sorted_insertionSort (· ≤ ·) _)
  exact ((List.perm_insertionSort _ _).trans ((h.map hourOf).dedup)).trans
    (List.perm_insertionSort _ _).symm

/-- The contributing values of a field in an hour group depend only on the
multiset of typed records. -/
theorem groupVals_perm {vs₁ vs₂ : List VRec} (h : vs₁.Perm vs₂) (k i : ℕ) :
    (groupVals vs₁ k i).Perm (groupVals vs₂ k i) :=
  (h.filter _).filterMap _

/-- The field means depend only on the multiset of typed records. -/
theorem fieldMean_eq_of_perm {vs₁ vs₂ : List VRec} (h : vs₁.Perm vs₂) (k i : ℕ) :
    fieldMean vs₁ k i = fieldMean vs₂ k i := by
  unfold fieldMean
  have hp := groupVals_perm h k i
  have hlen := hp.length_eq
  have hnil : groupVals vs₁ k i = [] ↔ groupVals vs₂ k i = [] := by
    rw [← List.length_eq_zero, ← List.length_eq_zero, hlen]
  by_cases h0 : groupVals vs₁ k i = []
  · rw [if_pos h0, if_pos (hnil.mp h0)]
  · rw [if_neg h0, if_neg (fun hh => h0 (hnil.mpr hh)), hp.sum_eq, hlen]

/-- The whole hourly table depends only on the multiset of typed records. -/
theorem hourlyRows_eq_of_perm {vs₁ vs₂ : List VRec} (h : vs₁.Perm vs₂) :
    hourlyRows vs₁ = hourlyRows vs₂ := by
  unfold hourlyRows
  rw [hourKeys_eq_of_perm h]
  have hf : (fun k => HourlyRow.mk k ((List.range 10).map (fun i => fieldMean vs₁ k i))) =
      (fun k => HourlyRow.mk k ((List.range 10).map (fun i => fieldMean vs₂ k i))) := by
    funext k
    have : (fun i => fieldMean vs₁ k i) = (fun i => fieldMean vs₂ k i) := by
      funext i
      exact fieldMean_eq_of_perm h k i
    rw [this]
  rw [hf]

/-- The single hourly row produced by aggregating `recA` and `recB`. -/
def rowAB : HourlyRow :=
  HourlyRow.mk (tsEncode 2024 1 1 10 0 0)
    [some 1, some 2, some 3, some 4, some 5, some 21, some 7, some 8, some 9, some 10]

/-- The typed record obtained from `recC`. -/
def vrecC : VRec :=
  VRec.mk (numFields recC) (tsEncode 2024 1 1 10 15 0)

/-! ### Claim theorems about the aggregator -/

/-- C3: valid timestamps are floored to the start of their hour (minute and
second zeroed), every emitted row's field value is the arithmetic mean of
that field over the records whose floored timestamp equals the row's hour
key (among those contributing a value), and concretely two records at
10:15 (Temp 20) and 10:45 (Temp 22) yield exactly one row for hour 10:00
with Temp mean 21, while a single record per hour yields its own values. -/
theorem C3_hourly_mean :
    (∀ y mo d h mi s : ℕ, mi < 60 → s < 60 →
      hourFloor (tsEncode y mo d h mi s) = tsEncode y mo d h 0 0) ∧
    (∀ (filas : List Record) (row : HourlyRow), row ∈ aggregate filas →
      ∀ i : ℕ, i < 10 →
        row.means.getD i none =
          (if ((validRecs filas).filter (fun v => hourOf v = row.hora)).filterMap
                (fun v => v.nums.getD i none) = [] then none
           else some ((((validRecs filas).filter (fun v => hourOf v = row.hora)).filterMap
                  (fun v => v.nums.getD i none)).sum /
                ((((validRecs filas).filter (fun v => hourOf v = row.hora)).filterMap
                  (fun v => v.nums.getD i none)).length : ℚ)))) ∧
    aggregate [recA, recB] = [rowAB] ∧
    aggregate [recA] =
      [HourlyRow.mk (tsEncode 2024 1 1 10 0 0)
        [some 1, some 2, some 3, some 4, some 5, some 20, some 7, some 8, some 9, some 10]] := by
  refine ⟨?_, ?_, by with_unfolding_all rfl, by with_unfolding_all rfl⟩
  · intro y mo d h mi s hmi hs
    unfold hourFloor tsEncode
    omega
  · intro filas row h i hi
    unfold aggregate at h
    obtain ⟨hk, hm⟩ := of_mem_hourlyRows h
    rw [hm, means_getD _ _ _ hi]
    rfl

/-- Witness for C3: the flooring at 10:15:00 and the Temp mean of the row
aggregating `recA` and `recB`. -/
theorem C3_hourly_mean_witness :
    hourFloor (tsEncode 2024 1 1 10 15 0) = tsEncode 2024 1 1 10 0 0 ∧
    rowAB.means.getD 5 none =
      (if ((validRecs [recA, recB]).filter (fun v => hourOf v = rowAB.hora)).filterMap
            (fun v => v.nums.getD 5 none) = [] then none
       else some ((((validRecs [recA, recB]).filter (fun v => hourOf v = rowAB.hora)).filterMap
              (fun v => v.nums.getD 5 none)).sum /
            ((((validRecs [recA, recB]).filter (fun v => hourOf v = rowAB.hora)).filterMap
              (fun v => v.nums.getD 5 none)).length : ℚ))) :=
  ⟨C3_hourly_mean.1 2024 1 1 10 15 0 (by decide) (by decide),
   C3_hourly_mean.2.1 [recA, recB] rowAB
     (by rw [C3_hourly_mean.2.2.1]; exact List.mem_singleton_self rowAB) 5 (by decide)⟩

/-- C4: the emitted hourly rows are strictly ascending by hour boundary
(hence hold no duplicate hour key), and any permutation of the input
records produces the identical final row sequence. -/
theorem C4_sorted_output_and_order_invariance :
    (∀ filas : List Record, ((aggregate filas).map HourlyRow.hora).Sorted (· < ·)) ∧
    (∀ f₁ f₂ : List Record, f₁.Perm f₂ → aggregate f₁ = aggregate f₂) := by
  constructor
  · intro filas
    unfold aggregate hourlyRows
    rw [List.map_map]
    rw [show (HourlyRow.hora ∘ fun k => HourlyRow.mk k
        ((List.range 10).map (fun i => fieldMean (validRecs filas) k i))) = id from rfl]
    rw [List.map_id]
    exact hourKeys_sorted (validRecs filas)
  · intro f₁ f₂ h
    unfold aggregate
    exact hourlyRows_eq_of_perm (h.filterMap _)

/-- Witness for C4: swapping the two input records leaves the table
unchanged. -/
theorem C4_sorted_output_and_order_invariance_witness :
    aggregate [recA, recB] = aggregate [recB, recA] :=
  C4_sorted_output_and_order_invariance.2 [recA, recB] [recB, recA]
    (List.Perm.swap recB recA [])

/-- C7: a numeric field is missing in an hour's row exactly when no record
of that hour contributed a value for it (so a coercion failure hurts only
that field of that record); an hour with at least one valid record always
emits a row; concretely, with `recC` (Humedad fails to coerce) and `recD`
(Humedad 50) in the same hour, the row reports Humedad 50 and still
averages Temp over both records. -/
theorem C7_missing_value_tolerance :
    (∀ (vs : List VRec) (k i : ℕ),
      fieldMean vs k i = none ↔ ∀ v ∈ vs, hourOf v = k → v.nums.getD i none = none) ∧
    (∀ (filas : List Record) (k : ℕ), (∃ v ∈ validRecs filas, hourOf v = k) →
      ∃ row ∈ aggregate filas, row.hora = k) ∧
    aggregate [recC, recD] =
      [HourlyRow.mk (tsEncode 2024 1 1 10 0 0)
        [some 1, some 2, some 3, some 4, some 50, some 21, some 7, some 8, some 9, some 10]] := by
  refine ⟨?_, ?_, by with_unfolding_all rfl⟩
  · intro vs k i
    have hgv : groupVals vs k i = [] ↔
        (∀ v ∈ vs, hourOf v = k → v.nums.getD i none = none) := by
      unfold groupVals
      rw [List.filterMap_eq_nil_iff]
      constructor
      · intro h v hv hk
        exact h v (List.mem_filter.mpr ⟨hv, by simpa using hk⟩)
      · intro h v hv
        have hm := List.mem_filter.mp hv
        exact h v hm.1 (by simpa using hm.2)
    unfold fieldMean
    constructor
    · intro h
      by_cases h0 : groupVals vs k i = []
      · exact hgv.mp h0
      · rw [if_neg h0] at h
        exact absurd h (by simp)
    · intro h
      rw [if_pos (hgv.mpr h)]
  · intro filas k hex
    have hkk : k ∈ hourKeys (validRecs filas) := mem_hourKeys.mpr hex
    unfold aggregate hourlyRows
    exact ⟨HourlyRow.mk k ((List.range 10).map (fun i => fieldMean (validRecs filas) k i)),
           List.mem_map_of_mem _ hkk, rfl⟩

/-- Witness for C7: the hour of `recC` and `recD` does emit a row. -/
theorem C7_missing_value_tolerance_witness :
    ∃ row ∈ aggregate [recC, recD], row.hora = tsEncode 2024 1 1 10 0 0 :=
  C7_missing_value_tolerance.2.1 [recC, recD] (tsEncode 2024 1 1 10 0 0)
    ⟨vrecC, by exact List.mem_cons_self vrecC _, by decide⟩

/-- C8: a record whose FechaISO fails timestamp coercion is dropped from
aggregation entirely — removing it from any position of the input changes
neither the typed record list nor any bucket or mean of the output. -/
theorem C8_invalid_timestamp_dropped :
    ∀ (l₁ l₂ : List Record) (r : Record), recTs r = none →
      validRecs (l₁ ++ r :: l₂) = validRecs (l₁ ++ l₂) ∧
      aggregate (l₁ ++ r :: l₂) = aggregate (l₁ ++ l₂) := by
  intro l₁ l₂ r h
  have hnone : (recTs r).map (fun t => VRec.mk (numFields r) t) = none := by
    rw [h]
    rfl
  have hv : validRecs (l₁ ++ r :: l₂) = validRecs (l₁ ++ l₂) := by
    unfold validRecs
    rw [List.filterMap_append, List.filterMap_append, List.filterMap_cons, hnone]
  refine ⟨hv, ?_⟩
  unfold aggregate
  rw [hv]

/-- Witness for C8 at `recBadTs`, whose FechaISO token is `notadate`. -/
theorem C8_invalid_timestamp_dropped_witness :
    validRecs ([recA] ++ recBadTs :: []) = validRecs ([recA] ++ []) ∧
    aggregate ([recA] ++ recBadTs :: []) = aggregate ([recA] ++ []) :=
  C8_invalid_timestamp_dropped [recA] [] recBadTs (by decide)

/-- C9: when parsing leaves zero records, `procesar_buffer` surfaces the
explicit no-data outcome (the raised `ValueError`, modelled as an
inspectable `Except.error` value) rather than an empty or null table, and
when at least one record remains it returns the aggregated table. -/
theorem C9_no_data_outcome :
    (∀ (lines : List (List Char)) (filas : List Record),
      parseLines lines = Except.ok filas → filas = [] →
      procesar_buffer lines = Except.error PyExc.valueError) ∧
    (∀ (lines : List (List Char)) (filas : List Record),
      parseLines lines = Except.ok filas → filas ≠ [] →
      procesar_buffer lines = Except.ok (aggregate filas)) := by
  constructor
  · intro lines filas hp he
    unfold procesar_buffer
    simp only [hp]
    rw [if_pos he]
  · intro lines filas hp hne
    unfold procesar_buffer
    simp only [hp]
    rw [if_neg hne]

/-- Witness for C9: the empty input raises the no-data error, one good line
yields the aggregated table. -/
theorem C9_no_data_outcome_witness :
    procesar_buffer [] = Except.error PyExc.valueError ∧
    procesar_buffer [exGood] = Except.ok (aggregate [exGoodRec]) :=
  ⟨C9_no_data_outcome.1 [] [] rfl rfl,
   C9_no_data_outcome.2 [exGood] [exGoodRec] rfl (by decide)⟩

end Datos
